/-
Verification of the Blood Bank auth backend (src/main.py).

The service exposes four HTTP endpoints:
  GET  /               (read_root)
  GET  /test           (test_database)
  POST /auth/register  (register_user)
  POST /auth/login     (login_user)

The embedding below models the MongoDB user collection "blooduser" as a list
of documents, JSON response bodies as a small value type `JVal`, and each
handler as a pure function from the database state and the parsed request to
an HTTP response (status code plus body).  Two pieces of code the handlers
call are not in src/ and are modelled from the spec, as marked in their doc
comments: the `database` module (`db`, `create_document`) and the passlib
bcrypt context (`pwd_context.hash` / `pwd_context.verify`).
-/
import Mathlib

/-- Python string slicing `s[:n]`, by code points. -/
def pySlice (s : String) (n : Nat) : String :=
  ⟨s.data.take n⟩

/-- Python `s.lower()`, by code points. -/
def pyLower (s : String) : String :=
  ⟨s.data.map Char.toLower⟩

/-- A BSON ObjectId, as generated by the store for the `_id` field.
Modelled as a counter value. -/
inductive BsonId where
  | mk : Nat → BsonId
deriving DecidableEq, Repr

/-- Python `str(oid)` on an ObjectId: its textual form. -/
def BsonId.str : BsonId → String
  | BsonId.mk n => "oid-" ++ toString n

/-- A JSON-like value, enough for the response bodies the handlers build.
`oid` is a raw ObjectId placed in a response without string conversion. -/
inductive JVal where
  | s : String → JVal
  | b : Bool → JVal
  | null : JVal
  | oid : BsonId → JVal
  | arr : List JVal → JVal
  | obj : List (String × JVal) → JVal

/-- `None`-or-string Python values (optional fields) rendered to JSON. -/
def JVal.ofOptS : Option String → JVal
  | none => JVal.null
  | some v => JVal.s v

/-- All strings occurring anywhere in a JSON value (keys and string values). -/
def JVal.strings : JVal → List String
  | JVal.s v => [v]
  | JVal.b _ => []
  | JVal.null => []
  | JVal.oid _ => []
  | JVal.arr [] => []
  | JVal.arr (v :: vs) => v.strings ++ (JVal.arr vs).strings
  | JVal.obj [] => []
  | JVal.obj ((k, v) :: fs) => k :: (v.strings ++ (JVal.obj fs).strings)

/-- Look up a top-level key of a JSON object. -/
def JVal.getField (j : JVal) (k : String) : Option JVal :=
  match j with
  | JVal.obj fs => (fs.find? (fun p => p.1 == k)).map (fun p => p.2)
  | _ => none

/-- An HTTP response: status code and JSON body.  A raised
`HTTPException(code, detail)` is rendered by FastAPI as status `code` with
body `{"detail": detail}`. -/
structure HttpResponse where
  status : Nat
  body : JVal

/-- The body FastAPI produces for `HTTPException(code, detail)`. -/
def httpError (code : Nat) (detail : String) : HttpResponse :=
  ⟨code, JVal.obj [("detail", JVal.s detail)]⟩

/-- Modelled from the spec: §4.1's Password Hasher `hash(plaintext)`, i.e. the
passlib bcrypt context's hashing, whose source is not in the repository.  The salt,
randomized per call in the real hasher, is an explicit parameter; the hash
string embeds the salt (in unary) and the parameters needed to re-verify,
behind a `$`-framed header as in bcrypt's format. -/
def pwdHash (plaintext : String) (salt : Nat) : String :=
  ⟨'$' :: (List.replicate salt 's' ++ '$' :: plaintext.data)⟩

/-- Salt-and-payload scanner for `pwdVerify`: consume the unary salt, then
require the `$` separator and compare the payload. -/
def checkSalt (p : List Char) : List Char → Bool
  | 's' :: rest => checkSalt p rest
  | '$' :: rest => rest == p
  | _ => false

/-- Modelled from the spec: §4.1's Password Hasher `verify(plaintext,
hash_string)`, i.e. the passlib bcrypt context's verification, whose source
is not in the repository.  Per the spec it is total:
`true` iff the plaintext hashed with the salt embedded in `hash_string`
matches it, and a malformed or empty `hash_string` (no parsable header)
yields `false` rather than an exception. -/
def pwdVerify (plaintext h : String) : Bool :=
  match h.data with
  | '$' :: rest => checkSalt plaintext.data rest
  | _ => false

/-- A document of the `blooduser` collection.  `_id` is always assigned by
the store at insertion.  For the other fields, `none` models the field being
absent from the document (documents created by `register_user` always carry
every field). -/
structure UserDoc where
  _id : BsonId
  name : Option String
  email : Option String
  phone : Option String
  city : Option String
  blood_group : Option String
  role : Option String
  password_hash : Option String
  is_active : Option Bool
deriving DecidableEq, Repr

/-- The database handle `db`: the `blooduser` collection, the ObjectId
counter for the next insert, the database name (`db.name`, `none` when the
attribute is missing), and the outcome of `db.list_collection_names()` —
`Except.error e` models that call raising an exception whose `str()` is `e`. -/
structure DBState where
  blooduser : List UserDoc
  nextId : Nat
  dbName : Option String
  listCollections : Except String (List String)
deriving Repr

/-- Modelled from the spec: §4.2's User Store insert, `create_document` from the
`database` module, which is imported by src/main.py but absent from src/.
Per the spec, `insert(user_document) -> generated_id` appends the record and
returns its generated unique identifier (the ObjectId, as pymongo's
`inserted_id`). -/
def create_document (st : DBState) (doc : UserDoc) : BsonId × DBState :=
  let oid := BsonId.mk st.nextId
  (oid, ⟨st.blooduser ++ [⟨oid, doc.name, doc.email, doc.phone, doc.city,
    doc.blood_group, doc.role, doc.password_hash, doc.is_active⟩],
    st.nextId + 1, st.dbName, st.listCollections⟩)

/-- The parsed body of POST /auth/register (pydantic `RegisterRequest`):
`name`, `email`, `password` required, the rest optional (defaulting to
`None`). -/
structure RegisterRequest where
  name : String
  email : String
  password : String
  phone : Option String
  city : Option String
  blood_group : Option String
deriving DecidableEq, Repr

/-- The parsed body of POST /auth/login (pydantic `LoginRequest`). -/
structure LoginRequest where
  email : String
  password : String
deriving DecidableEq, Repr

/-- GET / . -/
def read_root : HttpResponse :=
  ⟨200, JVal.obj [("message", JVal.s "Blood Bank API is running")]⟩

/-- GET /test .  `urlSet` is whether the DATABASE_URL environment variable
is set.  The outer `except` of the handler guards statements that cannot
raise (attribute reads and `os.getenv`), so only the inner `except` around
`list_collection_names` is reachable and modelled. -/
def test_database (db : Option DBState) (urlSet : Bool) : HttpResponse :=
  match db with
  | none =>
      ⟨200, JVal.obj [("backend", JVal.s "✅ Running"),
        ("database", JVal.s "⚠️ Available but not initialized"),
        ("database_url", JVal.null),
        ("database_name", JVal.null),
        ("connection_status", JVal.s "Not Connected"),
        ("collections", JVal.arr [])]⟩
  | some st =>
      match st.listCollections with
      | Except.ok cols =>
          ⟨200, JVal.obj [("backend", JVal.s "✅ Running"),
            ("database", JVal.s "✅ Connected & Working"),
            ("database_url", JVal.s (if urlSet then "✅ Set" else "❌ Not Set")),
            ("database_name", JVal.ofOptS (some (st.dbName.getD "✅ Connected"))),
            ("connection_status", JVal.s "Connected"),
            ("collections", JVal.arr ((cols.take 10).map JVal.s))]⟩
      | Except.error e =>
          ⟨200, JVal.obj [("backend", JVal.s "✅ Running"),
            ("database", JVal.s ("⚠️ Connected but Error: " ++ pySlice e 50)),
            ("database_url", JVal.s (if urlSet then "✅ Set" else "❌ Not Set")),
            ("database_name", JVal.ofOptS (some (st.dbName.getD "✅ Connected"))),
            ("connection_status", JVal.s "Connected"),
            ("collections", JVal.arr [])]⟩

/-- The predicate of `find_one({"email": e})`: the document's email field is
present and equal to `e`. -/
def emailIs (e : String) (u : UserDoc) : Bool :=
  u.email == some e

/-- POST /auth/register .  `salt` is the randomness the bcrypt hasher draws
for this call.  Returns the response together with the (possibly updated)
database state. -/
def register_user (db : Option DBState) (payload : RegisterRequest)
    (salt : Nat) : HttpResponse × Option DBState :=
  match db with
  | none => (httpError 500 "Database not configured", none)
  | some st =>
    match st.blooduser.find? (emailIs (pyLower payload.email)) with
    | some _ => (httpError 400 "Email already registered", some st)
    | none =>
      let password_hash := pwdHash payload.password salt
      let document : UserDoc := ⟨BsonId.mk 0, some payload.name,
        some (pyLower payload.email), payload.phone, payload.city,
        payload.blood_group, some "user", some password_hash, some true⟩
      let res := create_document st document
      (⟨200, JVal.obj [("status", JVal.s "success"),
        ("message", JVal.s "Registration successful"),
        ("user", JVal.obj [
          ("id", JVal.oid res.1),
          ("name", JVal.s payload.name),
          ("email", JVal.s (pyLower payload.email)),
          ("city", JVal.ofOptS payload.city),
          ("blood_group", JVal.ofOptS payload.blood_group)])]⟩,
       some res.2)

/-- POST /auth/login . -/
def login_user (db : Option DBState) (payload : LoginRequest) : HttpResponse :=
  match db with
  | none => httpError 500 "Database not configured"
  | some st =>
    match st.blooduser.find? (emailIs (pyLower payload.email)) with
    | none => httpError 401 "Invalid email or password"
    | some user =>
      if pwdVerify payload.password (user.password_hash.getD "") = false then
        httpError 401 "Invalid email or password"
      else if user.is_active.getD true = false then
        httpError 403 "Account is inactive"
      else
        ⟨200, JVal.obj [("status", JVal.s "success"),
          ("message", JVal.s "Login successful"),
          ("user", JVal.obj [
            ("id", JVal.s user._id.str),
            ("name", JVal.ofOptS user.name),
            ("email", JVal.ofOptS user.email),
            ("city", JVal.ofOptS user.city),
            ("blood_group", JVal.ofOptS user.blood_group)])]⟩

/-- The document `register_user` builds before insertion (its `_id`
placeholder replaced by the store), with the `_id` the store assigns when the
counter is `n`. -/
def regDoc (payload : RegisterRequest) (salt : Nat) (n : Nat) : UserDoc :=
  ⟨BsonId.mk n, some payload.name, some (pyLower payload.email),
    payload.phone, payload.city, payload.blood_group, some "user",
    some (pwdHash payload.password salt), some true⟩

/-- The field `k` of the `"user"` object of a response body. -/
def userField (r : HttpResponse) (k : String) : Option JVal :=
  (r.body.getField "user").bind (fun j => j.getField k)

/-- The non-secret strings of one stored user that a response may echo:
its id's string form and its name, email, city and blood group. -/
def userLeakSources (u : UserDoc) : List String :=
  u._id.str :: (u.name.toList ++ u.email.toList ++ u.city.toList ++ u.blood_group.toList)

/-- The fixed literals (keys and messages) /auth/login responses may contain. -/
def loginFixedStrings : List String :=
  ["detail", "Database not configured", "Invalid email or password",
   "Account is inactive", "status", "success", "message", "Login successful",
   "user", "id", "name", "email", "city", "blood_group"]

/-- Every string a /auth/login response can possibly contain: fixed literals
plus the non-secret fields of stored users.  The stored `password_hash`
values are deliberately not in this list. -/
def loginLeakSources (dbOpt : Option DBState) : List String :=
  loginFixedStrings ++
  (match dbOpt with
   | none => []
   | some st => st.blooduser.flatMap userLeakSources)

/-- The fixed literals (keys and messages) /auth/register responses may
contain. -/
def registerFixedStrings : List String :=
  ["detail", "Database not configured", "Email already registered",
   "status", "success", "message", "Registration successful", "user", "id",
   "name", "email", "city", "blood_group"]

/-- Every string a /auth/register response can possibly contain: fixed
literals plus the non-secret request fields.  Neither the password nor its
hash is in this list. -/
def registerLeakSources (payload : RegisterRequest) : List String :=
  registerFixedStrings ++
  (payload.name :: pyLower payload.email ::
    (payload.city.toList ++ payload.blood_group.toList))

/-- The fixed literals (keys and status strings) /test responses may contain. -/
def testFixedStrings : List String :=
  ["backend", "✅ Running", "database", "⚠️ Available but not initialized",
   "✅ Connected & Working", "database_url", "✅ Set", "❌ Not Set",
   "database_name", "✅ Connected", "connection_status", "Connected",
   "Not Connected", "collections"]

/-- Every string a /test response can possibly contain: fixed literals plus
the database name, the (truncated) error text and the collection names. -/
def testLeakSources (dbOpt : Option DBState) : List String :=
  testFixedStrings ++
  (match dbOpt with
   | none => []
   | some st => st.dbName.toList ++
       (match st.listCollections with
        | Except.ok cols => cols.take 10
        | Except.error e => ["⚠️ Connected but Error: " ++ pySlice e 50]))

/-- The strings of the GET / response. -/
def rootStrings : List String := ["message", "Blood Bank API is running"]

/-- A sample registration request (the spec's §8 example scenario). -/
def sampleReg : RegisterRequest :=
  ⟨"Alice", "Alice@Test.com", "secret1", none, none, none⟩

/-- A database state with no users. -/
def emptyDB : DBState := ⟨[], 0, none, Except.ok []⟩

/-- A concrete stored bcrypt hash for the password "hunter42". -/
def bobHash : String := pwdHash "hunter42" 3

/-- An active stored user with a full document. -/
def bob : UserDoc :=
  ⟨BsonId.mk 7, some "Bob", some "bob@x.com", none, some "Pune", some "B+",
    some "user", some bobHash, some true⟩

/-- A database state holding `bob`. -/
def bobDB : DBState := ⟨[bob], 8, some "blooddb", Except.ok ["blooduser"]⟩

/-- A stored user whose `is_active` is `false`. -/
def carol : UserDoc :=
  ⟨BsonId.mk 9, some "Carol", some "carol@x.com", none, none, none,
    some "user", some (pwdHash "pass99" 2), some false⟩

/-- A database state holding `carol`. -/
def carolDB : DBState := ⟨[carol], 10, none, Except.ok []⟩

/-- A stored user document lacking the `password_hash` field. -/
def dave : UserDoc :=
  ⟨BsonId.mk 11, some "Dave", some "dave@x.com", none, none, none,
    some "user", none, some true⟩

/-- A database state holding `dave`. -/
def daveDB : DBState := ⟨[dave], 12, none, Except.ok []⟩

/-- A stored user document lacking the `is_active` field. -/
def erin : UserDoc :=
  ⟨BsonId.mk 13, some "Erin", some "erin@x.com", none, none, none,
    some "user", some (pwdHash "hello7" 4), none⟩

/-- A database state holding `erin`. -/
def erinDB : DBState := ⟨[erin], 14, none, Except.ok []⟩

/-- An exception text longer than 50 characters. -/
def failErr : String :=
  "boom: connection refused to host mongodb-primary-0 port 27017 after timeout"

/-- A database state whose `list_collection_names()` raises `failErr`. -/
def failDB : DBState := ⟨[], 0, some "blooddb", Except.error failErr⟩

/-- Verification succeeds after consuming the unary salt and matching the
payload. -/
theorem checkSalt_replicate (p : List Char) (n : Nat) :
    checkSalt p (List.replicate n 's' ++ '$' :: p) = true := by
  induction n with
  | zero => simp [checkSalt]
  | succ n ih => simpa [List.replicate, checkSalt] using ih

/-- The hasher round-trip: verifying a password against its own hash
succeeds, for any salt. -/
theorem pwdVerify_pwdHash (p : String) (salt : Nat) :
    pwdVerify p (pwdHash p salt) = true := by
  show checkSalt p.data (List.replicate salt 's' ++ '$' :: p.data) = true
  exact checkSalt_replicate p.data salt

/-- The strings of a rendered optional field are exactly the value, if any. -/
theorem ofOptS_strings (o : Option String) : (JVal.ofOptS o).strings = o.toList := by
  cases o <;> simp [JVal.ofOptS, JVal.strings]

/-- The strings of a JSON array of strings are those strings. -/
theorem arr_map_s_strings (l : List String) :
    (JVal.arr (l.map JVal.s)).strings = l := by
  induction l with
  | nil => simp [JVal.strings]
  | cons a l ih => simp [JVal.strings, ih]

/-- The strings of a truncated JSON array of strings. -/
theorem arr_take_map_s_strings (n : Nat) (l : List String) :
    (JVal.arr (List.take n (l.map JVal.s))).strings = l.take n := by
  rw [← List.map_take]
  exact arr_map_s_strings (l.take n)

/-- Every string in a /auth/login response comes from the fixed literals or
a stored user's non-secret fields. -/
theorem login_strings_subset (dbOpt : Option DBState) (lp : LoginRequest) :
    ∀ x ∈ (login_user dbOpt lp).body.strings, x ∈ loginLeakSources dbOpt := by
  intro x hx
  cases dbOpt with
  | none =>
      simp [login_user, httpError, JVal.strings] at hx
      rcases hx with rfl | rfl <;> exact List.mem_append_left _ (by decide)
  | some st =>
      cases hfind : st.blooduser.find? (emailIs (pyLower lp.email)) with
      | none =>
          simp [login_user, hfind, httpError, JVal.strings] at hx
          rcases hx with rfl | rfl <;> exact List.mem_append_left _ (by decide)
      | some u =>
          have hmem := List.mem_of_find?_eq_some hfind
          by_cases hv : pwdVerify lp.password (u.password_hash.getD "") = false
          · simp [login_user, hfind, hv, httpError, JVal.strings] at hx
            rcases hx with rfl | rfl <;> exact List.mem_append_left _ (by decide)
          · by_cases ha : u.is_active.getD true = false
            · simp [login_user, hfind, hv, ha, httpError, JVal.strings] at hx
              rcases hx with rfl | rfl <;> exact List.mem_append_left _ (by decide)
            · simp [login_user, hfind, hv, ha, JVal.strings, ofOptS_strings] at hx
              rcases hx with rfl | rfl | rfl | rfl | rfl | rfl | rfl | rfl | hn | rfl | hn | rfl | hn | rfl | hn
              all_goals first
                | exact List.mem_append_left _ (by decide)
                | (refine List.mem_append_right _ (List.mem_flatMap.mpr ⟨u, hmem, ?_⟩);
                   simp [userLeakSources]; try tauto)

/-- Every string in a /auth/register response comes from the fixed literals
or the request's own non-secret fields. -/
theorem register_strings_subset (dbOpt : Option DBState)
    (payload : RegisterRequest) (salt : Nat) :
    ∀ x ∈ (register_user dbOpt payload salt).1.body.strings,
      x ∈ registerLeakSources payload := by
  intro x hx
  cases dbOpt with
  | none =>
      simp [register_user, httpError, JVal.strings] at hx
      rcases hx with rfl | rfl <;> exact List.mem_append_left _ (by decide)
  | some st =>
      cases hfind : st.blooduser.find? (emailIs (pyLower payload.email)) with
      | some u =>
          simp [register_user, hfind, httpError, JVal.strings] at hx
          rcases hx with rfl | rfl <;> exact List.mem_append_left _ (by decide)
      | none =>
          simp [register_user, hfind, create_document, JVal.strings,
            ofOptS_strings] at hx
          rcases hx with rfl | rfl | rfl | rfl | rfl | rfl | rfl | rfl | rfl | rfl | rfl | hn | rfl | hn
          all_goals first
            | exact List.mem_append_left _ (by decide)
            | (refine List.mem_append_right _ ?_; simp; try tauto)

set_option maxHeartbeats 2000000 in
/-- Every string in a /test response comes from the fixed literals, the
database name, the truncated error text or the collection names. -/
theorem test_strings_subset (dbOpt : Option DBState) (urlSet : Bool) :
    ∀ x ∈ (test_database dbOpt urlSet).body.strings,
      x ∈ testLeakSources dbOpt := by
  intro x hx
  obtain _ | ⟨bl, nid, nm, lc⟩ := dbOpt
  · simp [test_database, JVal.strings] at hx
    simp [testLeakSources, testFixedStrings]
    tauto
  · cases lc <;> cases nm <;> cases urlSet <;>
      (simp [test_database, JVal.strings, ofOptS_strings, arr_take_map_s_strings,
         arr_map_s_strings] at hx;
       simp [testLeakSources, testFixedStrings, Option.toList];
       tauto)

/-- The GET / response contains only its two fixed strings. -/
theorem root_strings_subset :
    ∀ x ∈ read_root.body.strings, x ∈ rootStrings := by
  intro x hx
  simpa [read_root, JVal.strings, rootStrings] using hx

/-- C1: registering a fresh email stores a document carrying the submitted
name, lowercased email, city and blood group, and a subsequent /auth/login
with the same email and password succeeds with status 200 and returns the
stored document's id (in its string form), name, email, city and
blood_group. -/
theorem register_then_login_succeeds (st : DBState) (payload : RegisterRequest)
    (salt : Nat)
    (hfresh : st.blooduser.find? (emailIs (pyLower payload.email)) = none) :
    (register_user (some st) payload salt).1.status = 200 ∧
    ∃ st2 d, (register_user (some st) payload salt).2 = some st2 ∧
      st2.blooduser = st.blooduser ++ [d] ∧
      d.name = some payload.name ∧
      d.email = some (pyLower payload.email) ∧
      d.city = payload.city ∧
      d.blood_group = payload.blood_group ∧
      login_user (some st2) ⟨payload.email, payload.password⟩ =
        ⟨200, JVal.obj [("status", JVal.s "success"),
          ("message", JVal.s "Login successful"),
          ("user", JVal.obj [
            ("id", JVal.s d._id.str),
            ("name", JVal.ofOptS d.name),
            ("email", JVal.ofOptS d.email),
            ("city", JVal.ofOptS d.city),
            ("blood_group", JVal.ofOptS d.blood_group)])]⟩ := by
  refine ⟨by simp [register_user, hfresh, create_document], ?_⟩
  refine ⟨⟨st.blooduser ++ [regDoc payload salt st.nextId], st.nextId + 1,
    st.dbName, st.listCollections⟩, regDoc payload salt st.nextId,
    by simp [register_user, hfresh, create_document, regDoc],
    rfl, rfl, rfl, rfl, rfl, ?_⟩
  simp [login_user, List.find?_append, hfresh, emailIs, regDoc, pwdVerify_pwdHash]

/-- C1 witness: the spec's example scenario, registering Alice on an empty
store and logging back in. -/
theorem register_then_login_succeeds_witness :
    (register_user (some emptyDB) sampleReg 5).1.status = 200 ∧
    ∃ st2 d, (register_user (some emptyDB) sampleReg 5).2 = some st2 ∧
      st2.blooduser = emptyDB.blooduser ++ [d] ∧
      d.name = some sampleReg.name ∧
      d.email = some (pyLower sampleReg.email) ∧
      d.city = sampleReg.city ∧
      d.blood_group = sampleReg.blood_group ∧
      login_user (some st2) ⟨sampleReg.email, sampleReg.password⟩ =
        ⟨200, JVal.obj [("status", JVal.s "success"),
          ("message", JVal.s "Login successful"),
          ("user", JVal.obj [
            ("id", JVal.s d._id.str),
            ("name", JVal.ofOptS d.name),
            ("email", JVal.ofOptS d.email),
            ("city", JVal.ofOptS d.city),
            ("blood_group", JVal.ofOptS d.blood_group)])]⟩ :=
  register_then_login_succeeds emptyDB sampleReg 5 rfl

/-- C2: a registration request whose email, compared case-insensitively,
matches the email of an already-stored user (stored, per the data model, in
lowercase-normalized form) fails with HTTP 400 "Email already registered"
and leaves the store unchanged. -/
theorem duplicate_email_rejected (st : DBState) (payload : RegisterRequest)
    (salt : Nat) (u0 : UserDoc) (hmem : u0 ∈ st.blooduser) (e0 : String)
    (he : u0.email = some e0) (hnorm : pyLower e0 = e0)
    (hmatch : pyLower e0 = pyLower payload.email) :
    register_user (some st) payload salt =
      (httpError 400 "Email already registered", some st) := by
  have he0 : e0 = pyLower payload.email := hnorm.symm.trans hmatch
  cases hf : st.blooduser.find? (emailIs (pyLower payload.email)) with
  | none =>
      rw [List.find?_eq_none] at hf
      exact absurd (by simp [emailIs, he, he0]) (hf u0 hmem)
  | some u => simp [register_user, hf]

/-- C2 witness: bob is stored as "bob@x.com"; registering "Bob@X.com" is
rejected and inserts nothing. -/
theorem duplicate_email_rejected_witness :
    register_user (some bobDB) ⟨"Eve", "Bob@X.com", "secret9", none, none, none⟩ 1 =
      (httpError 400 "Email already registered", some bobDB) :=
  duplicate_email_rejected bobDB ⟨"Eve", "Bob@X.com", "secret9", none, none, none⟩ 1
    bob (by decide) "bob@x.com" rfl (by decide) (by decide)

/-- C3: login with an unknown email and login with a known email but a
password failing verification both produce exactly `401` with the identical
body "Invalid email or password", so the two failures are observationally
indistinguishable. -/
theorem login_failures_indistinguishable (st : DBState) (lp1 lp2 : LoginRequest)
    (u : UserDoc)
    (hnone : st.blooduser.find? (emailIs (pyLower lp1.email)) = none)
    (hfound : st.blooduser.find? (emailIs (pyLower lp2.email)) = some u)
    (hbad : pwdVerify lp2.password (u.password_hash.getD "") = false) :
    login_user (some st) lp1 = httpError 401 "Invalid email or password" ∧
    login_user (some st) lp2 = httpError 401 "Invalid email or password" ∧
    login_user (some st) lp1 = login_user (some st) lp2 := by
  have h1 : login_user (some st) lp1 = httpError 401 "Invalid email or password" := by
    simp [login_user, hnone]
  have h2 : login_user (some st) lp2 = httpError 401 "Invalid email or password" := by
    simp [login_user, hfound, hbad]
  exact ⟨h1, h2, h1.trans h2.symm⟩

/-- C3 witness: a non-existent email and bob's email with a wrong password
give the same 401 response. -/
theorem login_failures_indistinguishable_witness :
    login_user (some bobDB) ⟨"nosuch@x.com", "w"⟩ =
      httpError 401 "Invalid email or password" ∧
    login_user (some bobDB) ⟨"Bob@X.com", "wrongpw"⟩ =
      httpError 401 "Invalid email or password" ∧
    login_user (some bobDB) ⟨"nosuch@x.com", "w"⟩ =
      login_user (some bobDB) ⟨"Bob@X.com", "wrongpw"⟩ :=
  login_failures_indistinguishable bobDB ⟨"nosuch@x.com", "w"⟩
    ⟨"Bob@X.com", "wrongpw"⟩ bob (by decide) (by decide) (by decide)

/-- C4: for a stored user with `is_active` false, the activity check runs
only after password verification: the correct password yields 403 "Account
is inactive" while a wrong password yields the generic 401. -/
theorem inactive_check_after_password (st : DBState) (email pw pwBad : String)
    (u : UserDoc)
    (hfound : st.blooduser.find? (emailIs (pyLower email)) = some u)
    (hinactive : u.is_active = some false)
    (hok : pwdVerify pw (u.password_hash.getD "") = true)
    (hbad : pwdVerify pwBad (u.password_hash.getD "") = false) :
    login_user (some st) ⟨email, pw⟩ = httpError 403 "Account is inactive" ∧
    login_user (some st) ⟨email, pwBad⟩ =
      httpError 401 "Invalid email or password" := by
  constructor
  · simp [login_user, hfound, hok, hinactive]
  · simp [login_user, hfound, hbad]

/-- C4 witness: carol is inactive; her correct password gives 403, a wrong
one gives 401. -/
theorem inactive_check_after_password_witness :
    login_user (some carolDB) ⟨"carol@x.com", "pass99"⟩ =
      httpError 403 "Account is inactive" ∧
    login_user (some carolDB) ⟨"carol@x.com", "bad"⟩ =
      httpError 401 "Invalid email or password" :=
  inactive_check_after_password carolDB "carol@x.com" "pass99" "bad" carol
    (by decide) rfl (by decide) (by decide)

/-- C5: verification never throws and fails closed: verifying any password
against the empty hash string (substituted when a document lacks
`password_hash`) returns false, and login for such a user returns the 401
error rather than an exception. -/
theorem malformed_hash_fails_closed (st : DBState) (lp : LoginRequest)
    (u : UserDoc)
    (hfound : st.blooduser.find? (emailIs (pyLower lp.email)) = some u)
    (hnohash : u.password_hash = none) :
    (∀ p, pwdVerify p "" = false) ∧
    login_user (some st) lp = httpError 401 "Invalid email or password" := by
  refine ⟨fun p => rfl, ?_⟩
  simp [login_user, hfound, hnohash]
  intro h
  exact absurd h (by simp [pwdVerify])

/-- C5 witness: dave's document has no password_hash; any login attempt gets
the generic 401. -/
theorem malformed_hash_fails_closed_witness :
    (∀ p, pwdVerify p "" = false) ∧
    login_user (some daveDB) ⟨"dave@x.com", "anything"⟩ =
      httpError 401 "Invalid email or password" :=
  malformed_hash_fails_closed daveDB ⟨"dave@x.com", "anything"⟩ dave
    (by decide) rfl

/-- C6: no endpoint's response body ever contains a stored `password_hash`
value.  Instantiating `h` with any stored hash: since a hash is none of the
fixed response literals and (being distinct from the users' non-secret
fields and the request's own fields) none of the other echoed strings, it
never occurs in any response of /auth/register, /auth/login, /test or / . -/
theorem password_hash_never_in_responses (dbOpt : Option DBState)
    (rp : RegisterRequest) (salt : Nat) (lp : LoginRequest) (urlSet : Bool)
    (h : String)
    (hr : h ∉ registerLeakSources rp)
    (hl : h ∉ loginLeakSources dbOpt)
    (ht : h ∉ testLeakSources dbOpt)
    (ho : h ∉ rootStrings) :
    h ∉ (register_user dbOpt rp salt).1.body.strings ∧
    h ∉ (login_user dbOpt lp).body.strings ∧
    h ∉ (test_database dbOpt urlSet).body.strings ∧
    h ∉ read_root.body.strings :=
  ⟨fun hm => hr (register_strings_subset dbOpt rp salt h hm),
   fun hm => hl (login_strings_subset dbOpt lp h hm),
   fun hm => ht (test_strings_subset dbOpt urlSet h hm),
   fun hm => ho (root_strings_subset h hm)⟩

/-- C6 witness: bob's stored bcrypt hash appears in no endpoint's response
over bob's store. -/
theorem password_hash_never_in_responses_witness :
    bobHash ∉ (register_user (some bobDB) sampleReg 5).1.body.strings ∧
    bobHash ∉ (login_user (some bobDB) ⟨"bob@x.com", "hunter42"⟩).body.strings ∧
    bobHash ∉ (test_database (some bobDB) true).body.strings ∧
    bobHash ∉ read_root.body.strings :=
  password_hash_never_in_responses (some bobDB) sampleReg 5
    ⟨"bob@x.com", "hunter42"⟩ true bobHash (by decide) (by decide) (by decide)
    (by decide)

/-- C7: a successful registration returns status 200 with a user object
holding exactly the keys id, name, email (lowercased), city and blood_group
— neither phone nor role — and the inserted document has role "user" and
is_active true. -/
theorem register_response_shape (st : DBState) (payload : RegisterRequest)
    (salt : Nat)
    (hfresh : st.blooduser.find? (emailIs (pyLower payload.email)) = none) :
    register_user (some st) payload salt =
      (⟨200, JVal.obj [("status", JVal.s "success"),
        ("message", JVal.s "Registration successful"),
        ("user", JVal.obj [
          ("id", JVal.oid (BsonId.mk st.nextId)),
          ("name", JVal.s payload.name),
          ("email", JVal.s (pyLower payload.email)),
          ("city", JVal.ofOptS payload.city),
          ("blood_group", JVal.ofOptS payload.blood_group)])]⟩,
       some ⟨st.blooduser ++ [regDoc payload salt st.nextId], st.nextId + 1,
         st.dbName, st.listCollections⟩) ∧
    (∃ ufields, (register_user (some st) payload salt).1.body.getField "user" =
        some (JVal.obj ufields) ∧
      ufields.map Prod.fst = ["id", "name", "email", "city", "blood_group"]) ∧
    (regDoc payload salt st.nextId).role = some "user" ∧
    (regDoc payload salt st.nextId).is_active = some true := by
  refine ⟨by simp [register_user, hfresh, create_document, regDoc], ?_, rfl, rfl⟩
  refine ⟨[("id", JVal.oid (BsonId.mk st.nextId)), ("name", JVal.s payload.name),
    ("email", JVal.s (pyLower payload.email)), ("city", JVal.ofOptS payload.city),
    ("blood_group", JVal.ofOptS payload.blood_group)], ?_, rfl⟩
  simp [register_user, hfresh, create_document, JVal.getField]

/-- C7 witness: registering Alice on the empty store yields exactly the
documented response and stored document. -/
theorem register_response_shape_witness :
    register_user (some emptyDB) sampleReg 5 =
      (⟨200, JVal.obj [("status", JVal.s "success"),
        ("message", JVal.s "Registration successful"),
        ("user", JVal.obj [
          ("id", JVal.oid (BsonId.mk emptyDB.nextId)),
          ("name", JVal.s sampleReg.name),
          ("email", JVal.s (pyLower sampleReg.email)),
          ("city", JVal.ofOptS sampleReg.city),
          ("blood_group", JVal.ofOptS sampleReg.blood_group)])]⟩,
       some ⟨emptyDB.blooduser ++ [regDoc sampleReg 5 emptyDB.nextId],
         emptyDB.nextId + 1, emptyDB.dbName, emptyDB.listCollections⟩) ∧
    (∃ ufields, (register_user (some emptyDB) sampleReg 5).1.body.getField "user" =
        some (JVal.obj ufields) ∧
      ufields.map Prod.fst = ["id", "name", "email", "city", "blood_group"]) ∧
    (regDoc sampleReg 5 emptyDB.nextId).role = some "user" ∧
    (regDoc sampleReg 5 emptyDB.nextId).is_active = some true :=
  register_response_shape emptyDB sampleReg 5 rfl

/-- C8: GET /test always answers 200: the collections list in the body has
at most 10 entries, and when `list_collection_names` raises, the exception
text is embedded in the database status string truncated to 50 characters
instead of propagating. -/
theorem test_endpoint_never_errors (dbOpt : Option DBState) (urlSet : Bool) :
    (test_database dbOpt urlSet).status = 200 ∧
    (∀ cols, (test_database dbOpt urlSet).body.getField "collections" =
        some (JVal.arr cols) → cols.length ≤ 10) ∧
    (∀ st e, dbOpt = some st → st.listCollections = Except.error e →
      (test_database dbOpt urlSet).body.getField "database" =
        some (JVal.s ("⚠️ Connected but Error: " ++ pySlice e 50)) ∧
      (pySlice e 50).length ≤ 50) := by
  obtain _ | ⟨bl, nid, nm, lc⟩ := dbOpt
  · refine ⟨rfl, ?_, ?_⟩
    · intro cols h
      simp [test_database, JVal.getField] at h
      subst h
      decide
    · intro st e h
      exact absurd h (by simp)
  · cases lc with
    | ok cols =>
        refine ⟨rfl, ?_, ?_⟩
        · intro cols0 h
          simp [test_database, JVal.getField] at h
          subst h
          simp only [List.length_map, List.length_take]
          omega
        · intro st e hsome herr
          obtain rfl : st = ⟨bl, nid, nm, Except.ok cols⟩ := (Option.some.inj hsome).symm
          exact absurd herr (by simp)
    | error e0 =>
        refine ⟨rfl, ?_, ?_⟩
        · intro cols0 h
          simp [test_database, JVal.getField] at h
          subst h
          decide
        · intro st e hsome herr
          obtain rfl : st = ⟨bl, nid, nm, Except.error e0⟩ := (Option.some.inj hsome).symm
          obtain rfl : e0 = e := by simpa using herr
          refine ⟨by simp [test_database, JVal.getField], ?_⟩
          have hlen : (pySlice e0 50).length = (e0.data.take 50).length := rfl
          rw [hlen]
          simp only [List.length_take]
          omega

/-- C8 witness: on a store whose collection listing raises a 76-character
exception, /test still answers 200, embeds the truncated text and reports an
empty collections list. -/
theorem test_endpoint_never_errors_witness :
    (test_database (some failDB) true).status = 200 ∧
    ([] : List JVal).length ≤ 10 ∧
    (test_database (some failDB) true).body.getField "database" =
      some (JVal.s ("⚠️ Connected but Error: " ++ pySlice failErr 50)) ∧
    (pySlice failErr 50).length ≤ 50 :=
  ⟨(test_endpoint_never_errors (some failDB) true).1,
   (test_endpoint_never_errors (some failDB) true).2.1 [] rfl,
   ((test_endpoint_never_errors (some failDB) true).2.2 failDB failErr rfl rfl).1,
   ((test_endpoint_never_errors (some failDB) true).2.2 failDB failErr rfl rfl).2⟩

/-- C9: a stored document lacking the `is_active` field is treated as
active: login with correct credentials succeeds with 200. -/
theorem missing_is_active_defaults_active (st : DBState) (lp : LoginRequest)
    (u : UserDoc)
    (hfound : st.blooduser.find? (emailIs (pyLower lp.email)) = some u)
    (hmissing : u.is_active = none)
    (hok : pwdVerify lp.password (u.password_hash.getD "") = true) :
    login_user (some st) lp =
      ⟨200, JVal.obj [("status", JVal.s "success"),
        ("message", JVal.s "Login successful"),
        ("user", JVal.obj [
          ("id", JVal.s u._id.str),
          ("name", JVal.ofOptS u.name),
          ("email", JVal.ofOptS u.email),
          ("city", JVal.ofOptS u.city),
          ("blood_group", JVal.ofOptS u.blood_group)])]⟩ := by
  simp [login_user, hfound, hok, hmissing]

/-- C9 witness: erin's document has no is_active field; login with her
correct password succeeds. -/
theorem missing_is_active_defaults_active_witness :
    login_user (some erinDB) ⟨"erin@x.com", "hello7"⟩ =
      ⟨200, JVal.obj [("status", JVal.s "success"),
        ("message", JVal.s "Login successful"),
        ("user", JVal.obj [
          ("id", JVal.s erin._id.str),
          ("name", JVal.ofOptS erin.name),
          ("email", JVal.ofOptS erin.email),
          ("city", JVal.ofOptS erin.city),
          ("blood_group", JVal.ofOptS erin.blood_group)])]⟩ :=
  missing_is_active_defaults_active erinDB ⟨"erin@x.com", "hello7"⟩ erin
    (by decide) rfl (by decide)

/-- C10: the id of a successful registration response is exactly the value
`create_document` returned, unmodified (a raw ObjectId), while the id of a
successful login response is the string conversion of the stored `_id`; the
two forms always differ. -/
theorem id_forms_differ (st : DBState) (payload : RegisterRequest) (salt : Nat)
    (hfresh : st.blooduser.find? (emailIs (pyLower payload.email)) = none)
    (st2 : DBState) (lp : LoginRequest) (u : UserDoc)
    (hfound : st2.blooduser.find? (emailIs (pyLower lp.email)) = some u)
    (hok : pwdVerify lp.password (u.password_hash.getD "") = true)
    (hactive : u.is_active.getD true = true) :
    userField (register_user (some st) payload salt).1 "id" =
      some (JVal.oid (create_document st (regDoc payload salt 0)).1) ∧
    userField (login_user (some st2) lp) "id" = some (JVal.s u._id.str) ∧
    (∀ b : BsonId, JVal.oid b ≠ JVal.s b.str) := by
  refine ⟨?_, ?_, fun b => by simp⟩
  · simp [register_user, hfresh, create_document, userField, JVal.getField, regDoc]
  · simp [login_user, hfound, hok, hactive, userField, JVal.getField]

/-- C10 witness: registering Alice returns a raw ObjectId as id; bob's login
returns the string form of his stored id; the forms differ. -/
theorem id_forms_differ_witness :
    userField (register_user (some emptyDB) sampleReg 5).1 "id" =
      some (JVal.oid (create_document emptyDB (regDoc sampleReg 5 0)).1) ∧
    userField (login_user (some bobDB) ⟨"bob@x.com", "hunter42"⟩) "id" =
      some (JVal.s bob._id.str) ∧
    (∀ b : BsonId, JVal.oid b ≠ JVal.s b.str) :=
  id_forms_differ emptyDB sampleReg 5 rfl bobDB ⟨"bob@x.com", "hunter42"⟩ bob
    (by decide) (by decide) (by decide)
